import Mathlib

/-!
Verification of the SLB listener reconciliation engine of
`alicloud/resource_alicloud_slb.go`.

The Go code is shallowly embedded: Go `int` becomes `Int`, Go `string`
becomes `String`, the aliyungo string-typed enums (`slb.FlagType`,
`slb.StickySessionType`, ...) become `String` constants, and fallible
functions return `Except`.  Remote API calls performed by the apply
orchestrator are recorded as an explicit event trace (`List ApiCall`),
with the remote side's behaviour (does a create / wait / start / delete
call fail?) supplied by an environment record `SlbEnv`.
-/

namespace Slb

/-- Constants of the aliyungo `slb` package, as used by the source file:
`slb.OnFlag = "on"`, `slb.OffFlag = "off"`,
`slb.InsertStickySessionType = "insert"`,
`slb.ServerStickySessionType = "server"`. -/
def OnFlag : String := "on"

def OffFlag : String := "off"

def InsertStickySessionType : String := "insert"

def ServerStickySessionType : String := "server"

/-- Protocol tags passed to `setListenerAttribute` by `readListerners`
(`Http`, `Https`, `Tcp`, `Udp` of the provider's `Protocol` string type). -/
def Http : String := "http"

def Https : String := "https"

def Tcp : String := "tcp"

def Udp : String := "udp"

/-- `strings.ToLower`, character by character.  The listener protocols the
provider deals with are ASCII, where Go's `strings.ToLower` and
`Char.toLower` agree. -/
def stringsToLower (s : String) : String := ⟨s.data.map Char.toLower⟩

/-- The provider's canonical `Listener` value (the struct produced by
`expandListeners` from one `listener` block of the terraform set; every
field below is read by the source file).  Go zero values are `0` and `""`. -/
structure Listener where
  InstancePort : Int := 0
  LoadBalancerPort : Int := 0
  Protocol : String := ""
  Bandwidth : Int := 0
  Scheduler : String := ""
  StickySession : String := ""
  StickySessionType : String := ""
  CookieTimeout : Int := 0
  Cookie : String := ""
  PersistenceTimeout : Int := 0
  HealthCheck : String := ""
  HealthCheckType : String := ""
  HealthCheckDomain : String := ""
  HealthCheckURI : String := ""
  HealthCheckConnectPort : Int := 0
  HealthyThreshold : Int := 0
  UnhealthyThreshold : Int := 0
  HealthCheckTimeout : Int := 0
  HealthCheckInterval : Int := 0
  HealthCheckHttpCode : String := ""
  SSLCertificateId : String := ""
deriving DecidableEq, Repr

/-- `resourceAliyunSlbListenerHash`: the identity fingerprint.  The Go
function writes `instance_port`, `lb_port`, `lowercase(lb_protocol)`,
`bandwidth` and `ssl_certificate_id` into a `-`-separated buffer and
feeds the buffer to the external `hashcode.String`.  Since
`hashcode.String` is a fixed pure function of the buffer, fingerprint
equality is buffer-string equality, which is what we model. -/
def resourceAliyunSlbListenerHash (l : Listener) : String :=
  toString l.InstancePort ++ "-" ++
  toString l.LoadBalancerPort ++ "-" ++
  stringsToLower l.Protocol ++ "-" ++
  toString l.Bandwidth ++ "-" ++
  l.SSLCertificateId ++ "-"

/-- `schema.Set.Difference` with `resourceAliyunSlbListenerHash` as the
`Set` function: the elements of `s` whose fingerprint occurs nowhere
in `t`. -/
def setDifference (s t : List Listener) : List Listener :=
  s.filter fun x =>
    ¬ t.any fun y => resourceAliyunSlbListenerHash y = resourceAliyunSlbListenerHash x

/-- The diff computed by `resourceAliyunSlbUpdate` on a `listener`
change: with `o` = current (old) set and `n` = desired (new) set,
`remove = o.Difference(n)` and `add = n.Difference(o)`. -/
def diffListeners (desired current : List Listener) :
    List Listener × List Listener :=
  (setDifference current desired, setDifference desired current)

theorem mem_setDifference (s t : List Listener) (l : Listener) :
    l ∈ setDifference s t ↔
      l ∈ s ∧ ∀ y ∈ t,
        resourceAliyunSlbListenerHash y ≠ resourceAliyunSlbListenerHash l := by
  simp [setDifference, List.mem_filter, List.any_eq_true]

theorem setDifference_self (s : List Listener) : setDifference s s = [] := by
  apply List.filter_eq_nil_iff.mpr
  intro a ha
  simp [List.any_eq_true]
  exact ⟨a, ha, rfl⟩

/-- C1: the diff over fingerprint equality returns
`toRemove = C \ D`, `toAdd = D \ C`, `diff(D,D) = (∅,∅)`, and a
listener matched (by fingerprint) in both sets appears in neither
output. -/
theorem diffListeners_correct (D C : List Listener) :
    ((∀ l, l ∈ (diffListeners D C).1 ↔
        l ∈ C ∧ ∀ d ∈ D,
          resourceAliyunSlbListenerHash d ≠ resourceAliyunSlbListenerHash l) ∧
     (∀ l, l ∈ (diffListeners D C).2 ↔
        l ∈ D ∧ ∀ c ∈ C,
          resourceAliyunSlbListenerHash c ≠ resourceAliyunSlbListenerHash l)) ∧
    diffListeners D D = ([], []) ∧
    (∀ l, (∃ d ∈ D, resourceAliyunSlbListenerHash d = resourceAliyunSlbListenerHash l) →
          (∃ c ∈ C, resourceAliyunSlbListenerHash c = resourceAliyunSlbListenerHash l) →
          l ∉ (diffListeners D C).1 ∧ l ∉ (diffListeners D C).2) := by
  refine ⟨⟨fun l => ?_, fun l => ?_⟩, ?_, fun l hd hc => ⟨?_, ?_⟩⟩
  · exact mem_setDifference C D l
  · exact mem_setDifference D C l
  · simp [diffListeners, setDifference_self]
  · intro hmem
    rcases (mem_setDifference C D l).mp hmem with ⟨-, hnone⟩
    rcases hd with ⟨d, hdD, hdfp⟩
    exact hnone d hdD hdfp
  · intro hmem
    rcases (mem_setDifference D C l).mp hmem with ⟨-, hnone⟩
    rcases hc with ⟨c, hcC, hcfp⟩
    exact hnone c hcC hcfp

/-- Sample listeners exercising the diff at a concrete input. -/
def listener80 : Listener :=
  { InstancePort := 8080, LoadBalancerPort := 80, Protocol := "http",
    Bandwidth := -1, StickySession := OffFlag, HealthCheck := OffFlag }

def listener443 : Listener :=
  { InstancePort := 8443, LoadBalancerPort := 443, Protocol := "https",
    Bandwidth := 10, SSLCertificateId := "cert-1" }

theorem diffListeners_correct_witness :
    diffListeners [listener80] [listener80] = ([], []) ∧
    listener80 ∉ (diffListeners [listener80] [listener80, listener443]).1 :=
  ⟨(diffListeners_correct [listener80] [listener80]).2.1,
   ((diffListeners_correct [listener80] [listener80, listener443]).2.2 listener80
      ⟨listener80, by decide, rfl⟩ ⟨listener80, by decide, rfl⟩).1⟩

/-- C2: the fingerprint depends only on the five identity fields:
two listeners agreeing on instance port, load-balancer port,
lowercased protocol, bandwidth and ssl certificate id have equal
fingerprints, whatever their other fields. -/
theorem resourceAliyunSlbListenerHash_identity_fields (l1 l2 : Listener)
    (h1 : l1.InstancePort = l2.InstancePort)
    (h2 : l1.LoadBalancerPort = l2.LoadBalancerPort)
    (h3 : stringsToLower l1.Protocol = stringsToLower l2.Protocol)
    (h4 : l1.Bandwidth = l2.Bandwidth)
    (h5 : l1.SSLCertificateId = l2.SSLCertificateId) :
    resourceAliyunSlbListenerHash l1 = resourceAliyunSlbListenerHash l2 := by
  simp [resourceAliyunSlbListenerHash, h1, h2, h3, h4, h5]

/-- A pair differing in every non-identity field (scheduler, affinity,
health check, persistence) but agreeing on the five identity fields. -/
def listenerIdA : Listener :=
  { InstancePort := 8080, LoadBalancerPort := 80, Protocol := "HTTP",
    Bandwidth := 5, Scheduler := "wrr", StickySession := OnFlag,
    StickySessionType := InsertStickySessionType, CookieTimeout := 60,
    HealthCheck := OnFlag, HealthCheckURI := "/a", HealthCheckDomain := "a.example",
    HealthCheckConnectPort := 80, HealthyThreshold := 3, UnhealthyThreshold := 3,
    HealthCheckTimeout := 5, HealthCheckInterval := 2, HealthCheckHttpCode := "http_2xx" }

def listenerIdB : Listener :=
  { InstancePort := 8080, LoadBalancerPort := 80, Protocol := "http",
    Bandwidth := 5, Scheduler := "wlc", StickySession := OffFlag,
    PersistenceTimeout := 100, HealthCheck := OffFlag }

theorem resourceAliyunSlbListenerHash_identity_fields_witness :
    resourceAliyunSlbListenerHash listenerIdA = resourceAliyunSlbListenerHash listenerIdB ∧
    listenerIdA ≠ listenerIdB :=
  ⟨resourceAliyunSlbListenerHash_identity_fields listenerIdA listenerIdB
      rfl rfl (by decide) rfl rfl,
   by decide⟩

/-- The error kinds carried by the provider's `ListenerErr` sentinel
(`HealthCheckErrType`, `StickySessionErrType`, `CookieTimeOutErrType`,
`CookieErrType`); the spec names them `HealthCheckIncomplete`,
`StickySessionTypeMissing`, `CookieTimeoutMissing`, `CookieMissing`. -/
inductive ListenerErrType where
  | HealthCheckErrType
  | StickySessionErrType
  | CookieTimeOutErrType
  | CookieErrType
deriving DecidableEq, Repr

/-- The `slb.HTTPListenerType` request record, with the fields the
source assigns in `getHttpListenerType`. -/
structure HTTPListenerType where
  LoadBalancerId : String := ""
  ListenerPort : Int := 0
  BackendServerPort : Int := 0
  Bandwidth : Int := 0
  Scheduler : String := ""
  HealthCheck : String := ""
  StickySession : String := ""
  StickySessionType : String := ""
  CookieTimeout : Int := 0
  Cookie : String := ""
  HealthCheckDomain : String := ""
  HealthCheckURI : String := ""
  HealthCheckConnectPort : Int := 0
  HealthyThreshold : Int := 0
  UnhealthyThreshold : Int := 0
  HealthCheckTimeout : Int := 0
  HealthCheckInterval : Int := 0
  HealthCheckHttpCode : String := ""
deriving DecidableEq, Repr

/-- The disjunction tested by `getHttpListenerType` when
`HealthCheck == slb.OnFlag`: some health-check detail field is empty
or zero. -/
def healthCheckFieldsMissing (l : Listener) : Prop :=
  l.HealthCheckURI = "" ∨ l.HealthCheckDomain = "" ∨ l.HealthCheckConnectPort = 0 ∨
  l.HealthyThreshold = 0 ∨ l.UnhealthyThreshold = 0 ∨ l.HealthCheckTimeout = 0 ∨
  l.HealthCheckHttpCode = "" ∨ l.HealthCheckInterval = 0

instance (l : Listener) : Decidable (healthCheckFieldsMissing l) :=
  inferInstanceAs (Decidable
    (l.HealthCheckURI = "" ∨ l.HealthCheckDomain = "" ∨ l.HealthCheckConnectPort = 0 ∨
     l.HealthyThreshold = 0 ∨ l.UnhealthyThreshold = 0 ∨ l.HealthCheckTimeout = 0 ∨
     l.HealthCheckHttpCode = "" ∨ l.HealthCheckInterval = 0))

/-- The HTTP request record built by `getHttpListenerType` once all
checks pass. -/
def buildHttpListenerType (loadBalancerId : String) (listener : Listener) :
    HTTPListenerType :=
  { LoadBalancerId := loadBalancerId,
    ListenerPort := listener.LoadBalancerPort,
    BackendServerPort := listener.InstancePort,
    Bandwidth := listener.Bandwidth,
    Scheduler := listener.Scheduler,
    HealthCheck := listener.HealthCheck,
    StickySession := listener.StickySession,
    StickySessionType := listener.StickySessionType,
    CookieTimeout := listener.CookieTimeout,
    Cookie := listener.Cookie,
    HealthCheckDomain := listener.HealthCheckDomain,
    HealthCheckURI := listener.HealthCheckURI,
    HealthCheckConnectPort := listener.HealthCheckConnectPort,
    HealthyThreshold := listener.HealthyThreshold,
    UnhealthyThreshold := listener.UnhealthyThreshold,
    HealthCheckTimeout := listener.HealthCheckTimeout,
    HealthCheckInterval := listener.HealthCheckInterval,
    HealthCheckHttpCode := listener.HealthCheckHttpCode }

/-- `getHttpListenerType`: the http/https validator plus request
builder.  The Go function returns early with a `*ListenerErr` at the
first violated rule, in the source's order: health check first, then
sticky-session type, then cookie timeout (insert), then cookie
(server). -/
def getHttpListenerType (loadBalancerId : String) (listener : Listener) :
    Except ListenerErrType HTTPListenerType :=
  if listener.HealthCheck = OnFlag ∧ healthCheckFieldsMissing listener then
    Except.error ListenerErrType.HealthCheckErrType
  else if listener.StickySession = OnFlag ∧ listener.StickySessionType = "" then
    Except.error ListenerErrType.StickySessionErrType
  else if listener.StickySession = OnFlag ∧
          listener.StickySessionType = InsertStickySessionType ∧
          listener.CookieTimeout = 0 then
    Except.error ListenerErrType.CookieTimeOutErrType
  else if listener.StickySession = OnFlag ∧
          listener.StickySessionType = ServerStickySessionType ∧
          listener.Cookie = "" then
    Except.error ListenerErrType.CookieErrType
  else
    Except.ok (buildHttpListenerType loadBalancerId listener)

/-- `slb.CreateLoadBalancerHTTPListenerArgs` is a Go type conversion of
`slb.HTTPListenerType`. -/
abbrev CreateLoadBalancerHTTPListenerArgs := HTTPListenerType

/-- `getHttpListenerArgs`: passes `getHttpListenerType` through,
converting the record type. -/
def getHttpListenerArgs (loadBalancerId : String) (listener : Listener) :
    Except ListenerErrType CreateLoadBalancerHTTPListenerArgs :=
  getHttpListenerType loadBalancerId listener

theorem getHttpListenerType_eq_error_healthCheck (lb : String) (l : Listener)
    (hon : l.HealthCheck = OnFlag) (hmiss : healthCheckFieldsMissing l) :
    getHttpListenerType lb l = Except.error ListenerErrType.HealthCheckErrType := by
  simp [getHttpListenerType, hon, hmiss]

theorem getHttpListenerType_ne_error_healthCheck (lb : String) (l : Listener)
    (hmiss : ¬ healthCheckFieldsMissing l) :
    getHttpListenerType lb l ≠ Except.error ListenerErrType.HealthCheckErrType := by
  unfold getHttpListenerType
  rw [if_neg (fun h => hmiss h.2)]
  split
  · simp
  · split
    · simp
    · split
      · simp
      · simp

/-- `slb.CreateLoadBalancerTCPListenerArgs`, with the fields the source
assigns in `getTcpListenerArgs`.  Note the timeout field of the TCP
shape is named `HealthCheckConnectTimeout` (the shape has no field
named `HealthCheckTimeout`; the HTTP shape has the converse). -/
structure CreateLoadBalancerTCPListenerArgs where
  LoadBalancerId : String := ""
  ListenerPort : Int := 0
  BackendServerPort : Int := 0
  Bandwidth : Int := 0
  Scheduler : String := ""
  PersistenceTimeout : Int := 0
  HealthCheckType : String := ""
  HealthCheckDomain : String := ""
  HealthCheckURI : String := ""
  HealthCheckConnectPort : Int := 0
  HealthyThreshold : Int := 0
  UnhealthyThreshold : Int := 0
  HealthCheckConnectTimeout : Int := 0
  HealthCheckInterval : Int := 0
  HealthCheckHttpCode : String := ""
deriving DecidableEq, Repr

/-- `slb.CreateLoadBalancerUDPListenerArgs`, with the fields the source
assigns in `getUdpListenerArgs`. -/
structure CreateLoadBalancerUDPListenerArgs where
  LoadBalancerId : String := ""
  ListenerPort : Int := 0
  BackendServerPort : Int := 0
  Bandwidth : Int := 0
  PersistenceTimeout : Int := 0
  HealthCheckConnectTimeout : Int := 0
  HealthCheckInterval : Int := 0
deriving DecidableEq, Repr

/-- `slb.CreateLoadBalancerHTTPSListenerArgs`: an embedded
`HTTPListenerType` plus `ServerCertificateId`. -/
structure CreateLoadBalancerHTTPSListenerArgs where
  HTTPListenerType : HTTPListenerType
  ServerCertificateId : String := ""
deriving DecidableEq, Repr

/-- `getTcpListenerArgs`: the TCP request.  The listener's
`HealthCheckTimeout` is stored in the shape's
`HealthCheckConnectTimeout` field. -/
def getTcpListenerArgs (loadBalancerId : String) (listener : Listener) :
    CreateLoadBalancerTCPListenerArgs :=
  { LoadBalancerId := loadBalancerId,
    ListenerPort := listener.LoadBalancerPort,
    BackendServerPort := listener.InstancePort,
    Bandwidth := listener.Bandwidth,
    Scheduler := listener.Scheduler,
    PersistenceTimeout := listener.PersistenceTimeout,
    HealthCheckType := listener.HealthCheckType,
    HealthCheckDomain := listener.HealthCheckDomain,
    HealthCheckURI := listener.HealthCheckURI,
    HealthCheckConnectPort := listener.HealthCheckConnectPort,
    HealthyThreshold := listener.HealthyThreshold,
    UnhealthyThreshold := listener.UnhealthyThreshold,
    HealthCheckConnectTimeout := listener.HealthCheckTimeout,
    HealthCheckInterval := listener.HealthCheckInterval,
    HealthCheckHttpCode := listener.HealthCheckHttpCode }

/-- `getUdpListenerArgs`: the UDP request. -/
def getUdpListenerArgs (loadBalancerId : String) (listener : Listener) :
    CreateLoadBalancerUDPListenerArgs :=
  { LoadBalancerId := loadBalancerId,
    ListenerPort := listener.LoadBalancerPort,
    BackendServerPort := listener.InstancePort,
    Bandwidth := listener.Bandwidth,
    PersistenceTimeout := listener.PersistenceTimeout,
    HealthCheckConnectTimeout := listener.HealthCheckTimeout,
    HealthCheckInterval := listener.HealthCheckInterval }

/-- One remote SLB API call issued by the orchestrator, recorded in
order of issue. -/
inductive ApiCall where
  | createTcp (args : CreateLoadBalancerTCPListenerArgs)
  | createHttp (args : CreateLoadBalancerHTTPListenerArgs)
  | createHttps (args : CreateLoadBalancerHTTPSListenerArgs)
  | createUdp (args : CreateLoadBalancerUDPListenerArgs)
  | waitForStopped (loadBalancerPort : Int)
  | startListener (loadBalancerPort : Int)
  | deleteListener (loadBalancerPort : Int)
deriving DecidableEq, Repr

/-- Does this call create a listener? -/
def ApiCall.isCreate : ApiCall → Bool
  | ApiCall.createTcp _ => true
  | ApiCall.createHttp _ => true
  | ApiCall.createHttps _ => true
  | ApiCall.createUdp _ => true
  | _ => false

/-- The remote side's behaviour during one reconciliation pass: which
kinds of calls fail.  `deleteErr` is per load-balancer port. -/
structure SlbEnv where
  createErr : Bool := false
  waitErr : Bool := false
  startErr : Bool := false
  deleteErr : Int → Bool := fun _ => false

/-- An error surfaced by `createListener`. -/
inductive CreateErr where
  /-- one of the `ListenerErr` kinds, rewritten by `errTypeJudge`. -/
  | paramErr (t : ListenerErrType)
  /-- the https branch's explicit check: the error message is
  `Server Certificated Id cann't be null`; the spec names the kind
  `CertificateRequired`. -/
  | certMissing
  /-- the protocol-specific create call returned an error. -/
  | createFailed
  /-- `WaitForListenerAsyn` did not observe `Stopped` in time. -/
  | waitTimeout (loadBalancerPort : Int)
  /-- `StartLoadBalancerListener` returned an error. -/
  | startFailed
deriving DecidableEq, Repr

/-- The tail of `createListener` after the create branches:
`WaitForListenerAsyn(..., slb.Stopped, defaultTimeout)` followed, on
success, by `StartLoadBalancerListener`.  `tr` is the trace so far. -/
def waitAndStart (env : SlbEnv) (port : Int) (tr : List ApiCall) :
    Except CreateErr Unit × List ApiCall :=
  if env.waitErr then
    (Except.error (CreateErr.waitTimeout port), tr ++ [ApiCall.waitForStopped port])
  else if env.startErr then
    (Except.error CreateErr.startFailed,
     tr ++ [ApiCall.waitForStopped port, ApiCall.startListener port])
  else
    (Except.ok (), tr ++ [ApiCall.waitForStopped port, ApiCall.startListener port])

/-- `createListener`: dispatches on the protocol string (the Go
comparisons are against `strings.ToLower("tcp")` etc., i.e. against
the literals `"tcp"`, `"http"`, `"https"`, `"udp"`), issues the
protocol-specific create, then waits for `Stopped` and starts the
listener.  A chain with no final `else`: an unrecognized protocol
falls through to the wait/start phase without any create call. -/
def createListener (env : SlbEnv) (loadBalancerId : String) (listener : Listener) :
    Except CreateErr Unit × List ApiCall :=
  if listener.Protocol = "tcp" then
    if env.createErr then
      (Except.error CreateErr.createFailed,
       [ApiCall.createTcp (getTcpListenerArgs loadBalancerId listener)])
    else
      waitAndStart env listener.LoadBalancerPort
        [ApiCall.createTcp (getTcpListenerArgs loadBalancerId listener)]
  else if listener.Protocol = "http" then
    match getHttpListenerArgs loadBalancerId listener with
    | Except.error t => (Except.error (CreateErr.paramErr t), [])
    | Except.ok args =>
      if env.createErr then
        (Except.error CreateErr.createFailed, [ApiCall.createHttp args])
      else
        waitAndStart env listener.LoadBalancerPort [ApiCall.createHttp args]
  else if listener.Protocol = "https" then
    match getHttpListenerType loadBalancerId listener with
    | Except.error t => (Except.error (CreateErr.paramErr t), [])
    | Except.ok listenerType =>
      if listener.SSLCertificateId = "" then
        (Except.error CreateErr.certMissing, [])
      else
        if env.createErr then
          (Except.error CreateErr.createFailed,
           [ApiCall.createHttps
              { HTTPListenerType := listenerType,
                ServerCertificateId := listener.SSLCertificateId }])
        else
          waitAndStart env listener.LoadBalancerPort
            [ApiCall.createHttps
               { HTTPListenerType := listenerType,
                 ServerCertificateId := listener.SSLCertificateId }]
  else if listener.Protocol = "udp" then
    if env.createErr then
      (Except.error CreateErr.createFailed,
       [ApiCall.createUdp (getUdpListenerArgs loadBalancerId listener)])
    else
      waitAndStart env listener.LoadBalancerPort
        [ApiCall.createUdp (getUdpListenerArgs loadBalancerId listener)]
  else
    waitAndStart env listener.LoadBalancerPort []

/-- An error surfaced by the `listener` block of
`resourceAliyunSlbUpdate`. -/
inductive UpdateErr where
  /-- `Failure removing outdated SLB listeners` -/
  | removeFailed (loadBalancerPort : Int)
  /-- `Failure add SLB listeners` -/
  | addFailed (e : CreateErr)
deriving DecidableEq, Repr

/-- The removal loop of `resourceAliyunSlbUpdate`: one
`DeleteLoadBalancerListener` per listener, returning at the first
failure. -/
def runRemoves (env : SlbEnv) : List Listener → Except UpdateErr Unit × List ApiCall
  | [] => (Except.ok (), [])
  | l :: rest =>
    if env.deleteErr l.LoadBalancerPort then
      (Except.error (UpdateErr.removeFailed l.LoadBalancerPort),
       [ApiCall.deleteListener l.LoadBalancerPort])
    else
      let r := runRemoves env rest
      (r.1, ApiCall.deleteListener l.LoadBalancerPort :: r.2)

/-- The addition loop of `resourceAliyunSlbUpdate`: one
`createListener` per listener, returning at the first failure. -/
def runAdds (env : SlbEnv) (loadBalancerId : String) :
    List Listener → Except UpdateErr Unit × List ApiCall
  | [] => (Except.ok (), [])
  | l :: rest =>
    match createListener env loadBalancerId l with
    | (Except.error e, tr) => (Except.error (UpdateErr.addFailed e), tr)
    | (Except.ok _, tr) =>
      let r := runAdds env loadBalancerId rest
      (r.1, tr ++ r.2)

/-- The `listener`-change block of `resourceAliyunSlbUpdate`: delete
every listener of `remove` (early return on failure), then create and
start every listener of `add` (early return on failure). -/
def updateListeners (env : SlbEnv) (loadBalancerId : String)
    (remove add : List Listener) : Except UpdateErr Unit × List ApiCall :=
  match runRemoves env remove with
  | (Except.error e, tr) => (Except.error e, tr)
  | (Except.ok _, tr) =>
    let r := runAdds env loadBalancerId add
    (r.1, tr ++ r.2)

/-- The remote environment in which every call succeeds. -/
def envOk : SlbEnv := {}

/-- C3: for an http/https listener with `healthCheck == on`, if any of
the eight health-check detail fields is empty or zero then validation
fails with the `HealthCheckErrType` kind and `createListener` returns
that error with an empty API trace (no remote call); if all fields are
non-empty/non-zero the health-check rule raises no error. -/
theorem healthCheck_incomplete_rule (env : SlbEnv) (lb : String) (l : Listener)
    (hon : l.HealthCheck = OnFlag) :
    (healthCheckFieldsMissing l →
       getHttpListenerType lb l = Except.error ListenerErrType.HealthCheckErrType ∧
       ((l.Protocol = "http" ∨ l.Protocol = "https") →
         createListener env lb l =
           (Except.error (CreateErr.paramErr ListenerErrType.HealthCheckErrType), []))) ∧
    (¬ healthCheckFieldsMissing l →
       getHttpListenerType lb l ≠ Except.error ListenerErrType.HealthCheckErrType) := by
  constructor
  · intro hmiss
    have herr := getHttpListenerType_eq_error_healthCheck lb l hon hmiss
    refine ⟨herr, ?_⟩
    rintro (hp | hp)
    · unfold createListener
      rw [if_neg (show ¬ l.Protocol = "tcp" by rw [hp]; decide), if_pos hp]
      simp [getHttpListenerArgs, herr]
    · unfold createListener
      rw [if_neg (show ¬ l.Protocol = "tcp" by rw [hp]; decide),
          if_neg (show ¬ l.Protocol = "http" by rw [hp]; decide), if_pos hp]
      simp [herr]
  · exact getHttpListenerType_ne_error_healthCheck lb l

/-- An http listener with health check on and every detail field left
at its zero value. -/
def listenerC3 : Listener :=
  { Protocol := "http", LoadBalancerPort := 80, InstancePort := 8080,
    Bandwidth := -1, HealthCheck := OnFlag }

theorem healthCheck_incomplete_rule_witness :
    getHttpListenerType "lb-1" listenerC3 =
      Except.error ListenerErrType.HealthCheckErrType ∧
    createListener envOk "lb-1" listenerC3 =
      (Except.error (CreateErr.paramErr ListenerErrType.HealthCheckErrType), []) :=
  ⟨((healthCheck_incomplete_rule envOk "lb-1" listenerC3 rfl).1 (Or.inl rfl)).1,
   ((healthCheck_incomplete_rule envOk "lb-1" listenerC3 rfl).1 (Or.inl rfl)).2
     (Or.inl rfl)⟩

/-- An insert-mode sticky listener with a negative cookie timeout. -/
def listenerNegCookie : Listener :=
  { Protocol := "http", StickySession := OnFlag,
    StickySessionType := InsertStickySessionType,
    CookieTimeout := -1, HealthCheck := OffFlag }

/-- C4 counterexample: the validator accepts a strictly negative
`cookieTimeout` (it only rejects `0`), contradicting the claim that
any `cookieTimeout ≤ 0` must fail with `CookieTimeoutMissing`. -/
theorem cookieTimeout_negative_not_rejected :
    listenerNegCookie.StickySession = OnFlag ∧
    listenerNegCookie.StickySessionType = InsertStickySessionType ∧
    listenerNegCookie.CookieTimeout < 0 ∧
    getHttpListenerType "lb-1" listenerNegCookie =
      Except.ok (buildHttpListenerType "lb-1" listenerNegCookie) :=
  ⟨rfl, rfl, by decide, rfl⟩

/-- C4 amended: for an http/https listener with sticky session on,
type insert, and a passing health-check rule, validation fails with
the `CookieTimeOutErrType` kind exactly when `cookieTimeout = 0`; in
particular negative timeouts are accepted. -/
theorem cookieTimeout_rule_amended (lb : String) (l : Listener)
    (hs : l.StickySession = OnFlag)
    (ht : l.StickySessionType = InsertStickySessionType)
    (hhc : ¬ (l.HealthCheck = OnFlag ∧ healthCheckFieldsMissing l)) :
    (getHttpListenerType lb l = Except.error ListenerErrType.CookieTimeOutErrType
      ↔ l.CookieTimeout = 0) := by
  unfold getHttpListenerType
  rw [if_neg hhc,
      if_neg (fun h => by rw [ht] at h; exact absurd h.2 (by decide))]
  by_cases hct : l.CookieTimeout = 0
  · rw [if_pos ⟨hs, ht, hct⟩]
    simp [hct]
  · rw [if_neg (fun h => hct h.2.2),
        if_neg (fun h => by rw [ht] at h; exact absurd h.2.1 (by decide))]
    simp [hct]

/-- An insert-mode sticky listener with cookie timeout zero. -/
def listenerCT0 : Listener :=
  { Protocol := "http", StickySession := OnFlag,
    StickySessionType := InsertStickySessionType,
    CookieTimeout := 0, HealthCheck := OffFlag }

theorem cookieTimeout_rule_amended_witness :
    getHttpListenerType "lb-1" listenerCT0 =
      Except.error ListenerErrType.CookieTimeOutErrType :=
  (cookieTimeout_rule_amended "lb-1" listenerCT0 rfl rfl (by decide)).mpr rfl

/-- A sticky listener of an unrecognized sticky-session type whose
health check is on but incomplete. -/
def listenerStickyOtherBadHc : Listener :=
  { Protocol := "http", StickySession := OnFlag,
    StickySessionType := "lb-cookie", HealthCheck := OnFlag }

/-- C10 counterexample: a listener with sticky session on and an
unrecognized non-empty sticky-session type is not always accepted:
with an incomplete health check the validator returns the health-check
error, not ok. -/
theorem sticky_other_type_not_ok :
    listenerStickyOtherBadHc.StickySession = OnFlag ∧
    listenerStickyOtherBadHc.StickySessionType ≠ "" ∧
    listenerStickyOtherBadHc.StickySessionType ≠ InsertStickySessionType ∧
    listenerStickyOtherBadHc.StickySessionType ≠ ServerStickySessionType ∧
    getHttpListenerType "lb-1" listenerStickyOtherBadHc =
      Except.error ListenerErrType.HealthCheckErrType :=
  ⟨rfl, by decide, by decide, by decide, rfl⟩

/-- C10 amended: for an http/https listener with sticky session on and
a non-empty sticky-session type that is neither insert nor server,
provided the health-check rule passes, the validator returns ok with
the built request — with no constraint on `cookieTimeout` or
`cookie`. -/
theorem sticky_other_type_rule_amended (lb : String) (l : Listener)
    (hs : l.StickySession = OnFlag) (hne : l.StickySessionType ≠ "")
    (hni : l.StickySessionType ≠ InsertStickySessionType)
    (hnsrv : l.StickySessionType ≠ ServerStickySessionType)
    (hhc : ¬ (l.HealthCheck = OnFlag ∧ healthCheckFieldsMissing l)) :
    getHttpListenerType lb l = Except.ok (buildHttpListenerType lb l) := by
  unfold getHttpListenerType
  rw [if_neg hhc, if_neg (fun h => hne h.2), if_neg (fun h => hni h.2.1),
      if_neg (fun h => hnsrv h.2.1)]

/-- A sticky listener of an unrecognized sticky-session type, health
check off, with zero cookie timeout and empty cookie. -/
def listenerStickyOther : Listener :=
  { Protocol := "http", StickySession := OnFlag,
    StickySessionType := "lb-cookie", HealthCheck := OffFlag }

theorem sticky_other_type_rule_amended_witness :
    getHttpListenerType "lb-1" listenerStickyOther =
      Except.ok (buildHttpListenerType "lb-1" listenerStickyOther) :=
  sticky_other_type_rule_amended "lb-1" listenerStickyOther rfl
    (by decide) (by decide) (by decide) (by decide)

theorem waitAndStart_waitErr_eq (env : SlbEnv) (port : Int) (tr : List ApiCall)
    (h : env.waitErr = true) :
    waitAndStart env port tr =
      (Except.error (CreateErr.waitTimeout port),
       tr ++ [ApiCall.waitForStopped port]) := by
  simp [waitAndStart, h]

theorem waitAndStart_ok_snd (env : SlbEnv) (port : Int) (tr : List ApiCall)
    (h : env.waitErr = false) :
    (waitAndStart env port tr).2 =
      tr ++ [ApiCall.waitForStopped port, ApiCall.startListener port] := by
  unfold waitAndStart
  rw [if_neg (by simp [h])]
  split <;> rfl

/-- `createListener` ends in exactly one of three ways: an early
validation/certificate error with an empty trace; a failed create call
whose trace is that single create; or a wait/start phase after a trace
of create calls only. -/
theorem createListener_shape (env : SlbEnv) (lb : String) (l : Listener) :
    (∃ e, createListener env lb l = (Except.error e, ([] : List ApiCall))) ∨
    (env.createErr = true ∧ ∃ c, c.isCreate = true ∧
       createListener env lb l = (Except.error CreateErr.createFailed, [c])) ∨
    (∃ tr0, (∀ c ∈ tr0, ApiCall.isCreate c = true) ∧
       createListener env lb l = waitAndStart env l.LoadBalancerPort tr0) := by
  unfold createListener
  split
  · split
    · next hc =>
      refine Or.inr (Or.inl ⟨hc, _, ?_, rfl⟩)
      rfl
    · refine Or.inr (Or.inr ⟨_, ?_, rfl⟩)
      simp [ApiCall.isCreate]
  · split
    · split
      · exact Or.inl ⟨_, rfl⟩
      · split
        · next hc =>
          refine Or.inr (Or.inl ⟨hc, _, ?_, rfl⟩)
          rfl
        · refine Or.inr (Or.inr ⟨_, ?_, rfl⟩)
          simp [ApiCall.isCreate]
    · split
      · split
        · exact Or.inl ⟨_, rfl⟩
        · split
          · exact Or.inl ⟨_, rfl⟩
          · split
            · next hc =>
              refine Or.inr (Or.inl ⟨hc, _, ?_, rfl⟩)
              rfl
            · refine Or.inr (Or.inr ⟨_, ?_, rfl⟩)
              simp [ApiCall.isCreate]
      · split
        · split
          · next hc =>
            refine Or.inr (Or.inl ⟨hc, _, ?_, rfl⟩)
            rfl
          · refine Or.inr (Or.inr ⟨_, ?_, rfl⟩)
            simp [ApiCall.isCreate]
        · exact Or.inr (Or.inr ⟨[], by simp, rfl⟩)

/-- C6: the orchestrator starts a listener only after the poll for
`stopped` has been issued and has succeeded (in every trace, the start
call sits right after the wait call); when the poll times out, the
listener's result is the wait error and no start call is issued; and
after a successful create call, the poll is always issued. -/
theorem createListener_wait_before_start (env : SlbEnv) (lb : String) (l : Listener) :
    (env.createErr = false →
       (createListener env lb l).2.any ApiCall.isCreate = true →
       ApiCall.waitForStopped l.LoadBalancerPort ∈ (createListener env lb l).2) ∧
    (env.waitErr = true →
       (∀ p, ApiCall.startListener p ∉ (createListener env lb l).2) ∧
       (ApiCall.waitForStopped l.LoadBalancerPort ∈ (createListener env lb l).2 →
          (createListener env lb l).1 =
            Except.error (CreateErr.waitTimeout l.LoadBalancerPort))) ∧
    (∀ p, ApiCall.startListener p ∈ (createListener env lb l).2 →
       env.waitErr = false ∧
       ∃ pre, (createListener env lb l).2 =
         pre ++ [ApiCall.waitForStopped p, ApiCall.startListener p]) := by
  rcases createListener_shape env lb l with
    ⟨e, heq⟩ | ⟨hc, c, hcre, heq⟩ | ⟨tr0, htr0, heq⟩ <;> rw [heq]
  · simp
  · refine ⟨?_, ?_, ?_⟩
    · intro h
      rw [h] at hc
      cases hc
    · intro _
      refine ⟨?_, ?_⟩
      · intro p hp
        simp at hp
        rw [← hp] at hcre
        simp [ApiCall.isCreate] at hcre
      · intro hw
        simp at hw
        rw [← hw] at hcre
        simp [ApiCall.isCreate] at hcre
    · intro p hp
      simp at hp
      rw [← hp] at hcre
      simp [ApiCall.isCreate] at hcre
  · have hstartNot : ∀ p, ApiCall.startListener p ∉ tr0 := by
      intro p hmem
      have := htr0 _ hmem
      simp [ApiCall.isCreate] at this
    rcases Bool.dichotomy env.waitErr with hw | hw
    · have h2 := waitAndStart_ok_snd env l.LoadBalancerPort tr0 hw
      rw [h2]
      refine ⟨?_, ?_, ?_⟩
      · intro _ _
        simp
      · intro h
        simp [h] at hw
      · intro p hp
        rcases List.mem_append.mp hp with h | h
        · exact absurd h (hstartNot p)
        · simp at h
          refine ⟨hw, tr0, ?_⟩
          rw [h]
    · have h1 := waitAndStart_waitErr_eq env l.LoadBalancerPort tr0 hw
      rw [h1]
      refine ⟨?_, ?_, ?_⟩
      · intro _ _
        simp
      · intro _
        refine ⟨?_, fun _ => rfl⟩
        intro p hp
        rcases List.mem_append.mp hp with h | h
        · exact absurd h (hstartNot p)
        · simp at h
      · intro p hp
        rcases List.mem_append.mp hp with h | h
        · exact absurd h (hstartNot p)
        · simp at h

/-- A plain TCP listener on port 9000. -/
def listenerTcp9 : Listener :=
  { Protocol := "tcp", LoadBalancerPort := 9000, InstancePort := 9090,
    Bandwidth := 10 }

/-- The remote environment whose poll for `stopped` times out. -/
def envWait : SlbEnv := { waitErr := true }

theorem createListener_wait_before_start_witness :
    (∀ p, ApiCall.startListener p ∉ (createListener envWait "lb-1" listenerTcp9).2) ∧
    (createListener envWait "lb-1" listenerTcp9).1 =
      Except.error (CreateErr.waitTimeout 9000) :=
  ⟨((createListener_wait_before_start envWait "lb-1" listenerTcp9).2.1 rfl).1,
   ((createListener_wait_before_start envWait "lb-1" listenerTcp9).2.1 rfl).2
     (by decide)⟩

/-- C9: with a protocol string that is none of the lowercase `tcp`,
`http`, `https`, `udp`, `createListener` issues no create call and
raises no protocol error, yet still runs the wait-for-stopped and
start phase for the listener's port. -/
theorem createListener_unknown_protocol (env : SlbEnv) (lb : String) (l : Listener)
    (h1 : l.Protocol ≠ "tcp") (h2 : l.Protocol ≠ "http")
    (h3 : l.Protocol ≠ "https") (h4 : l.Protocol ≠ "udp") :
    (∀ c ∈ (createListener env lb l).2, c.isCreate = false) ∧
    ApiCall.waitForStopped l.LoadBalancerPort ∈ (createListener env lb l).2 ∧
    (env.waitErr = false → env.startErr = false →
      createListener env lb l =
        (Except.ok (), [ApiCall.waitForStopped l.LoadBalancerPort,
                        ApiCall.startListener l.LoadBalancerPort])) := by
  have heq : createListener env lb l = waitAndStart env l.LoadBalancerPort [] := by
    unfold createListener
    rw [if_neg h1, if_neg h2, if_neg h3, if_neg h4]
  rw [heq]
  refine ⟨?_, ?_, ?_⟩
  · intro c hc
    rcases Bool.dichotomy env.waitErr with hw | hw
    · rw [waitAndStart_ok_snd env _ [] hw] at hc
      simp at hc
      rcases hc with hc | hc <;> rw [hc] <;> rfl
    · rw [waitAndStart_waitErr_eq env _ [] hw] at hc
      simp at hc
      rw [hc]
      rfl
  · rcases Bool.dichotomy env.waitErr with hw | hw
    · rw [waitAndStart_ok_snd env _ [] hw]
      simp
    · rw [waitAndStart_waitErr_eq env _ [] hw]
      simp
  · intro hw hst
    simp [waitAndStart, hw, hst]

/-- A listener whose protocol is the uppercase string `TCP`. -/
def listenerUpperTCP : Listener :=
  { Protocol := "TCP", LoadBalancerPort := 80, InstancePort := 8080,
    Bandwidth := -1 }

theorem createListener_unknown_protocol_witness :
    createListener envOk "lb-1" listenerUpperTCP =
      (Except.ok (), [ApiCall.waitForStopped 80, ApiCall.startListener 80]) :=
  (createListener_unknown_protocol envOk "lb-1" listenerUpperTCP
      (by decide) (by decide) (by decide) (by decide)).2.2 rfl rfl

/-- An https listener with empty certificate and an incomplete health
check. -/
def listenerHttpsBadHc : Listener :=
  { Protocol := "https", LoadBalancerPort := 443, InstancePort := 8443,
    Bandwidth := 10, SSLCertificateId := "", HealthCheck := OnFlag }

/-- C5 counterexample: an https listener with an empty certificate does
not always fail with the certificate error: when the health-check rule
also fails, `createListener` surfaces the health-check kind instead
(the certificate check runs after `getHttpListenerType`). -/
theorem https_cert_missing_wrong_kind :
    listenerHttpsBadHc.Protocol = "https" ∧
    listenerHttpsBadHc.SSLCertificateId = "" ∧
    createListener envOk "lb-1" listenerHttpsBadHc =
      (Except.error (CreateErr.paramErr ListenerErrType.HealthCheckErrType), []) ∧
    CreateErr.paramErr ListenerErrType.HealthCheckErrType ≠ CreateErr.certMissing :=
  ⟨rfl, rfl, rfl, by decide⟩

/-- C5 amended: for every https listener with an empty
`sslCertificateId`, `createListener` fails and issues no API call at
all (in particular no create call); the error kind is the certificate
error whenever the http-type validation itself passes. -/
theorem https_cert_missing_amended (env : SlbEnv) (lb : String) (l : Listener)
    (hp : l.Protocol = "https") (hc : l.SSLCertificateId = "") :
    (createListener env lb l).2 = [] ∧
    (∃ e, (createListener env lb l).1 = Except.error e) ∧
    (∀ t, getHttpListenerType lb l = Except.ok t →
       createListener env lb l = (Except.error CreateErr.certMissing, [])) := by
  have hne1 : ¬ l.Protocol = "tcp" := by rw [hp]; decide
  have hne2 : ¬ l.Protocol = "http" := by rw [hp]; decide
  unfold createListener
  rw [if_neg hne1, if_neg hne2, if_pos hp]
  cases hget : getHttpListenerType lb l with
  | error t => simp
  | ok t => simp [hc]

/-- An https listener with empty certificate that passes the http-type
validation. -/
def listenerHttpsNoCert : Listener :=
  { Protocol := "https", LoadBalancerPort := 443, InstancePort := 8443,
    Bandwidth := 10, SSLCertificateId := "", HealthCheck := OffFlag,
    StickySession := OffFlag }

theorem https_cert_missing_amended_witness :
    createListener envOk "lb-1" listenerHttpsNoCert =
      (Except.error CreateErr.certMissing, []) :=
  (https_cert_missing_amended envOk "lb-1" listenerHttpsNoCert rfl rfl).2.2
    (buildHttpListenerType "lb-1" listenerHttpsNoCert) rfl

theorem runRemoves_failfast (env : SlbEnv) (remove : List Listener) (i : Nat)
    (hi : i < remove.length)
    (hfail : env.deleteErr (remove.get ⟨i, hi⟩).LoadBalancerPort = true)
    (hok : ∀ l ∈ remove.take i, env.deleteErr l.LoadBalancerPort = false) :
    runRemoves env remove =
      (Except.error (UpdateErr.removeFailed (remove.get ⟨i, hi⟩).LoadBalancerPort),
       (remove.take (i+1)).map fun l => ApiCall.deleteListener l.LoadBalancerPort) := by
  induction remove generalizing i with
  | nil => exact absurd hi (by simp)
  | cons hd tl ih =>
    cases i with
    | zero =>
      have hfail0 : env.deleteErr hd.LoadBalancerPort = true := hfail
      unfold runRemoves
      rw [if_pos hfail0]
      simp
    | succ j =>
      have hhd : env.deleteErr hd.LoadBalancerPort = false :=
        hok hd (by simp [List.take_succ_cons])
      have hok2 : ∀ l ∈ tl.take j, env.deleteErr l.LoadBalancerPort = false := by
        intro l hl
        exact hok l (by simp [List.take_succ_cons, hl])
      unfold runRemoves
      rw [if_neg (by simp [hhd])]
      rw [ih j (by simpa using hi) (by simpa using hfail) hok2]
      simp [List.take_succ_cons]

/-- C7: during the listener apply pass, if the `i`-th delete of the
removal batch fails (all earlier deletes succeeding), the whole update
returns that error at once: the API trace consists of exactly the
deletes of the first `i+1` removal listeners — no later delete and no
create/wait/start for any added listener. -/
theorem updateListeners_delete_failfast (env : SlbEnv) (lb : String)
    (remove add : List Listener) (i : Nat) (hi : i < remove.length)
    (hfail : env.deleteErr (remove.get ⟨i, hi⟩).LoadBalancerPort = true)
    (hok : ∀ l ∈ remove.take i, env.deleteErr l.LoadBalancerPort = false) :
    updateListeners env lb remove add =
      (Except.error (UpdateErr.removeFailed (remove.get ⟨i, hi⟩).LoadBalancerPort),
       (remove.take (i+1)).map fun l => ApiCall.deleteListener l.LoadBalancerPort) := by
  unfold updateListeners
  rw [runRemoves_failfast env remove i hi hfail hok]

/-- The remote environment in which exactly the delete of port 443
fails. -/
def envDel : SlbEnv := { deleteErr := fun p => p == 443 }

theorem updateListeners_delete_failfast_witness :
    updateListeners envDel "lb-1" [listener80, listener443, listenerTcp9]
        [listenerStickyOther] =
      (Except.error (UpdateErr.removeFailed 443),
       [ApiCall.deleteListener 80, ApiCall.deleteListener 443]) :=
  updateListeners_delete_failfast envDel "lb-1"
    [listener80, listener443, listenerTcp9] [listenerStickyOther] 1
    (by decide) (by decide) (by decide)

/-- The field bag seen by the reflective `setListenerAttribute`: for
each canonical field name the function looks up with `FieldByName`,
either the raw listener shape has a field of exactly that name
(`some` value) or it does not (`none`, `IsValid()` false). -/
structure RawAttrs where
  BackendServerPort : Option Int := none
  ListenerPort : Option Int := none
  Bandwidth : Option Int := none
  Scheduler : Option String := none
  HealthCheck : Option String := none
  StickySession : Option String := none
  StickySessionType : Option String := none
  CookieTimeout : Option Int := none
  Cookie : Option String := none
  PersistenceTimeout : Option Int := none
  HealthCheckType : Option String := none
  HealthCheckDomain : Option String := none
  HealthCheckConnectPort : Option Int := none
  HealthCheckURI : Option String := none
  HealthyThreshold : Option Int := none
  UnhealthyThreshold : Option Int := none
  HealthCheckTimeout : Option Int := none
  HealthCheckInterval : Option Int := none
  HealthCheckHttpCode : Option String := none
  ServerCertificateId : Option String := none
deriving DecidableEq, Repr

/-- The TCP listener shape as a field bag.  The shape's fields are the
ones the source's own `getTcpListenerArgs` literal assigns; its
timeout field is named `HealthCheckConnectTimeout`, so the lookup of
`HealthCheckTimeout` finds nothing (`none`), and the shape carries no
affinity or certificate fields. -/
def CreateLoadBalancerTCPListenerArgs.toRaw
    (a : CreateLoadBalancerTCPListenerArgs) : RawAttrs :=
  { BackendServerPort := some a.BackendServerPort,
    ListenerPort := some a.ListenerPort,
    Bandwidth := some a.Bandwidth,
    Scheduler := some a.Scheduler,
    PersistenceTimeout := some a.PersistenceTimeout,
    HealthCheckType := some a.HealthCheckType,
    HealthCheckDomain := some a.HealthCheckDomain,
    HealthCheckURI := some a.HealthCheckURI,
    HealthCheckConnectPort := some a.HealthCheckConnectPort,
    HealthyThreshold := some a.HealthyThreshold,
    UnhealthyThreshold := some a.UnhealthyThreshold,
    HealthCheckInterval := some a.HealthCheckInterval,
    HealthCheckHttpCode := some a.HealthCheckHttpCode }

/-- The UDP listener shape as a field bag: like TCP its timeout field
is `HealthCheckConnectTimeout`, and it carries no scheduler, health
check detail, affinity or certificate fields. -/
def CreateLoadBalancerUDPListenerArgs.toRaw
    (a : CreateLoadBalancerUDPListenerArgs) : RawAttrs :=
  { BackendServerPort := some a.BackendServerPort,
    ListenerPort := some a.ListenerPort,
    Bandwidth := some a.Bandwidth,
    PersistenceTimeout := some a.PersistenceTimeout,
    HealthCheckInterval := some a.HealthCheckInterval }

/-- The HTTP listener shape as a field bag (field names of
`slb.HTTPListenerType`, assigned in `getHttpListenerType`). -/
def HTTPListenerType.toRaw (a : HTTPListenerType) : RawAttrs :=
  { BackendServerPort := some a.BackendServerPort,
    ListenerPort := some a.ListenerPort,
    Bandwidth := some a.Bandwidth,
    Scheduler := some a.Scheduler,
    HealthCheck := some a.HealthCheck,
    StickySession := some a.StickySession,
    StickySessionType := some a.StickySessionType,
    CookieTimeout := some a.CookieTimeout,
    Cookie := some a.Cookie,
    HealthCheckDomain := some a.HealthCheckDomain,
    HealthCheckURI := some a.HealthCheckURI,
    HealthCheckConnectPort := some a.HealthCheckConnectPort,
    HealthyThreshold := some a.HealthyThreshold,
    UnhealthyThreshold := some a.UnhealthyThreshold,
    HealthCheckTimeout := some a.HealthCheckTimeout,
    HealthCheckInterval := some a.HealthCheckInterval,
    HealthCheckHttpCode := some a.HealthCheckHttpCode }

/-- The HTTPS listener shape as a field bag: the HTTP fields plus
`ServerCertificateId`. -/
def CreateLoadBalancerHTTPSListenerArgs.toRaw
    (a : CreateLoadBalancerHTTPSListenerArgs) : RawAttrs :=
  { a.HTTPListenerType.toRaw with
    ServerCertificateId := some a.ServerCertificateId }

/-- `setListenerAttribute`: the tolerant reflective projection.  For
each canonical field, copy the raw shape's value when the lookup
succeeds, else leave the canonical zero value (the Go code omits the
map key, which the schema reads as the type's zero value); the
protocol tag is attached verbatim. -/
def setListenerAttribute (raw : RawAttrs) (protocol : String) : Listener :=
  { InstancePort := raw.BackendServerPort.getD 0,
    LoadBalancerPort := raw.ListenerPort.getD 0,
    Protocol := protocol,
    Bandwidth := raw.Bandwidth.getD 0,
    Scheduler := raw.Scheduler.getD "",
    HealthCheck := raw.HealthCheck.getD "",
    StickySession := raw.StickySession.getD "",
    StickySessionType := raw.StickySessionType.getD "",
    CookieTimeout := raw.CookieTimeout.getD 0,
    Cookie := raw.Cookie.getD "",
    PersistenceTimeout := raw.PersistenceTimeout.getD 0,
    HealthCheckType := raw.HealthCheckType.getD "",
    HealthCheckDomain := raw.HealthCheckDomain.getD "",
    HealthCheckURI := raw.HealthCheckURI.getD "",
    HealthCheckConnectPort := raw.HealthCheckConnectPort.getD 0,
    HealthyThreshold := raw.HealthyThreshold.getD 0,
    UnhealthyThreshold := raw.UnhealthyThreshold.getD 0,
    HealthCheckTimeout := raw.HealthCheckTimeout.getD 0,
    HealthCheckInterval := raw.HealthCheckInterval.getD 0,
    HealthCheckHttpCode := raw.HealthCheckHttpCode.getD "",
    SSLCertificateId := raw.ServerCertificateId.getD "" }

/-- A valid TCP listener with a non-zero health-check timeout. -/
def listenerTcpRT : Listener :=
  { Protocol := "tcp", LoadBalancerPort := 80, InstancePort := 8080,
    Bandwidth := -1, Scheduler := "wrr", PersistenceTimeout := 100,
    HealthCheckType := "tcp", HealthCheckDomain := "a.example",
    HealthCheckURI := "/hc", HealthCheckConnectPort := 80,
    HealthyThreshold := 3, UnhealthyThreshold := 3,
    HealthCheckTimeout := 5, HealthCheckInterval := 2,
    HealthCheckHttpCode := "http_2xx" }

/-- C8: the TCP round-trip does not reconstruct `healthCheckTimeout`.
The builder stores the listener's timeout in the TCP shape's
`HealthCheckConnectTimeout` field, but the normalizer only looks up a
field named `HealthCheckTimeout`, which the TCP shape lacks — so the
value comes back as the zero value, not the original `5`; every other
field of this TCP listener round-trips intact. -/
theorem tcp_roundtrip_drops_healthCheckTimeout :
    (getTcpListenerArgs "lb-1" listenerTcpRT).HealthCheckConnectTimeout =
      listenerTcpRT.HealthCheckTimeout ∧
    listenerTcpRT.HealthCheckTimeout = 5 ∧
    (setListenerAttribute
        (CreateLoadBalancerTCPListenerArgs.toRaw
          (getTcpListenerArgs "lb-1" listenerTcpRT)) Tcp).HealthCheckTimeout = 0 ∧
    setListenerAttribute
        (CreateLoadBalancerTCPListenerArgs.toRaw
          (getTcpListenerArgs "lb-1" listenerTcpRT)) Tcp =
      { listenerTcpRT with HealthCheckTimeout := 0 } :=
  ⟨rfl, rfl, rfl, by decide⟩

end Slb
